import Mathlib

/-!
Verification of the issue-detection and prioritization core of the KubAI
repository: the shared analyzer capability (confidence scoring and issue
prioritization from src/agents/base_agent.py), the delivery-pipeline
analyzer sub-checks (src/agents/devops_agent.py), the ML-pipeline analyzer
sub-checks (src/agents/mlops_agent.py), and the cross-pipeline correlator
(src/monitors/issue_detector.py).

Python floats are modelled as rationals, Python str as String, optional
dictionary fields as Option, and dictionaries with insertion-order
iteration as lists in first-occurrence order.  Python sorted(..., key,
reverse=True) is a stable sort and is modelled by List.mergeSort with the
corresponding boolean comparison.
-/

namespace KubAI

/-- Metadata values stored in the open metadata mapping of an Issue:
numbers, strings, lists of strings, and lists of (name, rate) rows. -/
inductive MVal where
  | num (q : ℚ)
  | str (s : String)
  | strList (l : List String)
  | rows (l : List (String × ℚ))
deriving DecidableEq, Repr

/-- The Issue dataclass of src/agents/base_agent.py: a detected problem in
a pipeline.  The metadata dictionary is modelled as an association list in
insertion order. -/
structure Issue where
  severity : String
  category : String
  title : String
  description : String
  affected_component : String
  impact : String
  recommendation : String
  confidence : ℚ
  metadata : List (String × MVal)
deriving DecidableEq, Repr

/-- Python str(round(q)) used to model the :.0f numeric interpolation in
f-strings; the exact rendering of numbers in free text is irrelevant to
every claim. -/
def fmtF0 (q : ℚ) : String := toString (round q)

/-- Models the :.1% / :.2% / :.2f interpolations: free-text rendering of a
rational, irrelevant to every claim. -/
def fmtQ (q : ℚ) : String := toString q

/-! ## Shared analyzer capability (BaseAgent, src/agents/base_agent.py) -/

/-- BaseAgent._calculate_confidence: iterates the fixed weight table
{pattern_match: 0.3, statistical_significance: 0.4, historical_data: 0.3}
in insertion order, adds evidence[key] * weight for each key present in
the evidence mapping, and clamps the sum to [0, 1] with min/max.  The
evidence dictionary is modelled as an association list. -/
def calculateConfidence (evidence : List (String × ℚ)) : ℚ :=
  let score : ℚ := 0
  let score := match evidence.lookup "pattern_match" with
    | some v => score + v * (3/10)
    | none => score
  let score := match evidence.lookup "statistical_significance" with
    | some v => score + v * (4/10)
    | none => score
  let score := match evidence.lookup "historical_data" with
    | some v => score + v * (3/10)
    | none => score
  min (max score 0) 1

/-- Modelled from the spec words (section 4.1), for comparison with the
code: confidence(evidence) = clamp(sum of weight_i * evidence_i, 0, 1)
over the fixed weight table, absent keys contributing zero. -/
def confidenceSpec (evidence : List (String × ℚ)) : ℚ :=
  let wsum := ((evidence.lookup "pattern_match").getD 0) * (3/10)
    + ((evidence.lookup "statistical_significance").getD 0) * (4/10)
    + ((evidence.lookup "historical_data").getD 0) * (3/10)
  min (max wsum 0) 1

/-- The raw weighted sum before clamping, used to speak about inputs that
exceed the weight-implied bounds. -/
def weightedSum (evidence : List (String × ℚ)) : ℚ :=
  ((evidence.lookup "pattern_match").getD 0) * (3/10)
    + ((evidence.lookup "statistical_significance").getD 0) * (4/10)
    + ((evidence.lookup "historical_data").getD 0) * (3/10)

/-- The severity_order table of BaseAgent._prioritize_issues:
{"critical": 4, "high": 3, "medium": 2, "low": 1}, with dict.get default 0
for any other string. -/
def severityRank (s : String) : Nat :=
  if s = "critical" then 4
  else if s = "high" then 3
  else if s = "medium" then 2
  else if s = "low" then 1
  else 0

/-- The sort key (severity_order.get(severity, 0), confidence) of
BaseAgent._prioritize_issues. -/
def issueKey (i : Issue) : Nat × ℚ := (severityRank i.severity, i.confidence)

/-- Boolean comparison corresponding to Python sorted(key=..., reverse=True)
on the lexicographic key pair: a may come before b exactly when the key of a
is lexicographically at least the key of b. -/
def keyGe (a b : Issue) : Bool :=
  decide ((issueKey b).1 < (issueKey a).1 ∨
    ((issueKey a).1 = (issueKey b).1 ∧ (issueKey b).2 ≤ (issueKey a).2))

/-- BaseAgent._prioritize_issues: stable descending sort by
(severity rank, confidence). -/
def prioritizeIssues (issues : List Issue) : List Issue :=
  issues.mergeSort keyGe

/-! ## Delivery-pipeline analyzer: build performance
(DevOpsAgent._analyze_build_performance, src/agents/devops_agent.py) -/

/-- One record of the builds section; status and duration are optional
fields read with dict.get. -/
structure Build where
  status : Option String
  duration : Option ℚ
deriving DecidableEq, Repr

/-- The durations list: [b.get("duration", 0) for b in builds if
b.get("status") == "success"]. -/
def successDurations (builds : List Build) : List ℚ :=
  (builds.filter (fun b => b.status = some "success")).map
    (fun b => b.duration.getD 0)

/-- Average duration over successful builds (0 when there are none; the
code only uses it under a non-emptiness guard). -/
def avgSuccessDuration (builds : List Build) : ℚ :=
  (successDurations builds).sum / ((successDurations builds).length : ℚ)

/-- Number of builds whose status is "failed". -/
def failedBuildCount (builds : List Build) : Nat :=
  (builds.filter (fun b => b.status = some "failed")).length

/-- Build failure rate: failed builds over all builds, 0 when there are no
builds. -/
def buildFailureRate (builds : List Build) : ℚ :=
  if 0 < builds.length then (failedBuildCount builds : ℚ) / (builds.length : ℚ)
  else 0

/-- The slow-builds Issue emitted by _analyze_build_performance. -/
def slowBuildIssue (avg : ℚ) (sampleSize : Nat) : Issue :=
  { severity := "medium"
    category := "performance"
    title := "Slow Build Times"
    description := "Average build time is " ++ fmtF0 avg
      ++ " seconds, exceeding recommended threshold"
    affected_component := "CI/CD Pipeline"
    impact := "Delayed feedback cycles, reduced developer productivity. Average delay: "
      ++ fmtF0 (avg - 300) ++ "s per build"
    recommendation := "Consider: 1) Enable build caching, 2) Parallelize test execution, 3) Use faster build agents, 4) Optimize dependency resolution"
    confidence := 9/10
    metadata := [("avg_duration", MVal.num avg),
                 ("sample_size", MVal.num sampleSize)] }

/-- The high build-failure-rate Issue emitted by
_analyze_build_performance. -/
def buildFailureIssue (rate : ℚ) (failed total : Nat) : Issue :=
  { severity := "high"
    category := "reliability"
    title := "High Build Failure Rate"
    description := "Build failure rate is " ++ fmtQ rate ++ ", indicating instability"
    affected_component := "Build Process"
    impact := toString failed ++ " out of " ++ toString total
      ++ " builds failed. This blocks deployments and wastes resources"
    recommendation := "Investigate common failure patterns, improve test stability, add pre-commit hooks, review recent code changes"
    confidence := 19/20
    metadata := [("failure_rate", MVal.num rate),
                 ("failed_count", MVal.num failed),
                 ("total_count", MVal.num total)] }

/-- DevOpsAgent._analyze_build_performance on a builds section whose
durations are numeric: returns early on an empty section; averages the
durations of successful builds and emits the slow-builds Issue when the
average exceeds the slow_builds threshold 600; computes failed/total over
all builds and emits the failure-rate Issue when it exceeds 0.15. -/
def analyzeBuildPerformance (builds : List Build) : List Issue :=
  if builds.length = 0 then []
  else
    let durations := successDurations builds
    let perfIssues :=
      if durations.length ≠ 0 then
        let avg := durations.sum / (durations.length : ℚ)
        if 600 < avg then [slowBuildIssue avg durations.length] else []
      else []
    let total := builds.length
    let failed := failedBuildCount builds
    let failureRate : ℚ := if 0 < total then (failed : ℚ) / (total : ℚ) else 0
    let relIssues :=
      if 3/20 < failureRate
      then [buildFailureIssue failureRate failed total] else []
    perfIssues ++ relIssues

/-! ## Dynamic-typing model of the builds sub-check, for the
error-propagation claim.  Python values read from the batch are loosely
typed; summing a list containing a string raises TypeError. -/

/-- A loosely typed Python scalar as it appears in a metric record. -/
inductive PyVal where
  | num (q : ℚ)
  | str (s : String)
deriving DecidableEq, Repr

/-- One raw builds record, duration not assumed numeric. -/
structure RawBuild where
  status : Option String
  duration : Option PyVal
deriving DecidableEq, Repr

/-- Python sum() over a list of loosely typed values: starts from int 0
and raises TypeError at the first non-numeric element. -/
def pySumFrom (acc : ℚ) : List PyVal → Except String ℚ
  | [] => Except.ok acc
  | PyVal.num q :: t => pySumFrom (acc + q) t
  | PyVal.str _ :: _t =>
      Except.error "TypeError: unsupported operand type(s) for +: int and str"

/-- DevOpsAgent._analyze_build_performance under Python dynamic typing:
identical control flow to analyzeBuildPerformance, except that the sum of
the durations of successful builds is computed by Python sum(), which
raises (returns Except.error) on a non-numeric duration.  The function has
no exception handler, and neither does DevOpsAgent.analyze, so the error
propagates out of the whole analyze call. -/
def analyzeBuildPerformanceDyn (builds : List RawBuild) : Except String (List Issue) :=
  if builds.length = 0 then Except.ok []
  else
    let durations := (builds.filter (fun b => b.status = some "success")).map
      (fun b => b.duration.getD (PyVal.num 0))
    match (if durations.length ≠ 0 then (pySumFrom 0 durations).map some
           else Except.ok none : Except String (Option ℚ)) with
    | Except.error e => Except.error e
    | Except.ok sumDur =>
      let perfIssues :=
        match sumDur with
        | some s =>
          let avg := s / (durations.length : ℚ)
          if 600 < avg then [slowBuildIssue avg durations.length] else []
        | none => []
      let total := builds.length
      let failed := (builds.filter (fun b => b.status = some "failed")).length
      let failureRate : ℚ := if 0 < total then (failed : ℚ) / (total : ℚ) else 0
      let relIssues :=
        if 3/20 < failureRate
        then [buildFailureIssue failureRate failed total] else []
      Except.ok (perfIssues ++ relIssues)

/-! ## Delivery-pipeline analyzer: test reliability
(DevOpsAgent._analyze_test_reliability, src/agents/devops_agent.py) -/

/-- One record of the tests section; name and status read with dict.get. -/
structure TestRec where
  name : Option String
  status : Option String
deriving DecidableEq, Repr

/-- The keys of the test_results dictionary in first-occurrence order:
records whose name is missing or empty (falsy in Python) are skipped, and
each remaining name appears once, at the position of its first occurrence.
This models Python dict insertion-order iteration. -/
def testNames : List TestRec → List String
  | [] => []
  | t :: ts =>
    match t.name with
    | some n =>
      if n = "" then testNames ts
      else n :: (testNames ts).filter (fun m => decide (m ≠ n))
    | none => testNames ts

/-- Number of records of a given test name whose status is "passed". -/
def passCount (tests : List TestRec) (n : String) : Nat :=
  (tests.filter (fun t => t.name = some n ∧ t.status = some "passed")).length

/-- Number of records of a given test name whose status is anything other
than "passed" (the else branch of the counting loop). -/
def failCount (tests : List TestRec) (n : String) : Nat :=
  (tests.filter (fun t => t.name = some n ∧ t.status ≠ some "passed")).length

/-- The flaky_tests list: for each grouped test name, when total > 1 and
both counters are positive and the failure rate failed/total lies strictly
between 0.1 and 0.9, the pair (name, failure_rate) is kept. -/
def flakyTests (tests : List TestRec) : List (String × ℚ) :=
  (testNames tests).filterMap (fun n =>
    let p := passCount tests n
    let f := failCount tests n
    let total := p + f
    if 1 < total ∧ 0 < f ∧ 0 < p then
      let rate : ℚ := (f : ℚ) / (total : ℚ)
      if 1/10 < rate ∧ rate < 9/10 then some (n, rate) else none
    else none)

/-- The single flaky-tests Issue emitted when any flaky tests exist. -/
def flakyIssue (flaky : List (String × ℚ)) : Issue :=
  { severity := "high"
    category := "reliability"
    title := "Flaky Tests Detected"
    description := "Found " ++ toString flaky.length
      ++ " flaky tests with intermittent failures"
    affected_component := "Test Suite"
    impact := "Flaky tests reduce confidence in test results, waste time investigating false failures, and may mask real issues"
    recommendation := "Investigate and fix flaky tests: "
      ++ String.intercalate ", " ((flaky.take 3).map Prod.fst)
      ++ (if 3 < flaky.length then "..." else "")
      ++ ". Common causes: timing issues, shared state, external dependencies"
    confidence := 17/20
    metadata := [("flaky_tests", MVal.rows flaky)] }

/-- DevOpsAgent._analyze_test_reliability: groups executions by test name,
classifies flaky tests, and emits one Issue exactly when the flaky list is
non-empty. -/
def analyzeTestReliability (tests : List TestRec) : List Issue :=
  if flakyTests tests ≠ [] then [flakyIssue (flakyTests tests)] else []

/-! ## ML-pipeline analyzer: model performance
(MLOpsAgent._analyze_model_performance, src/agents/mlops_agent.py) -/

/-- One record of the model_metrics section; all fields read with
dict.get (timestamp default "", numeric fields default 0). -/
structure MetricPoint where
  timestamp : Option String
  accuracy : Option ℚ
  f1_score : Option ℚ
deriving DecidableEq, Repr

/-- Default metric point used only as the (unreachable) fallback of
getLastD on a list the code has already guarded to be non-empty. -/
def defaultMetricPoint : MetricPoint := { timestamp := none, accuracy := none, f1_score := none }

/-- Lexicographic code-point comparison of character lists, the order
Python uses to compare strings. -/
def charListLe : List Char → List Char → Bool
  | [], _ => true
  | _ :: _, [] => false
  | a :: as, b :: bs => if a < b then true else if b < a then false else charListLe as bs

/-- Python string comparison (less or equal), lexicographic by code
point. -/
def strLe (a b : String) : Bool := charListLe a.toList b.toList

/-- Python sorted(model_metrics, key=lambda x: x.get("timestamp", "")):
stable ascending sort by the timestamp string. -/
def mlSortedMetrics (metrics : List MetricPoint) : List MetricPoint :=
  metrics.mergeSort (fun a b => strLe (a.timestamp.getD "") (b.timestamp.getD ""))

/-- Mean of the accuracy values (dict.get default 0) of a window of metric
points; statistics.mean, only applied under a non-emptiness guard. -/
def meanAccuracy (window : List MetricPoint) : ℚ :=
  (window.map (fun m => m.accuracy.getD 0)).sum / (window.length : ℚ)

/-- The recent window sorted_metrics[-5:] of the sorted section: the last
five points (or all of them when fewer). -/
def mlRecent (metrics : List MetricPoint) : List MetricPoint :=
  (mlSortedMetrics metrics).drop ((mlSortedMetrics metrics).length - 5)

/-- The comparison window: sorted_metrics[-10:-5] when at least ten points
exist, otherwise sorted_metrics[:-5] (everything before the last five,
empty when the section holds five points or fewer). -/
def mlOlder (metrics : List MetricPoint) : List MetricPoint :=
  if 10 ≤ (mlSortedMetrics metrics).length then
    ((mlSortedMetrics metrics).drop ((mlSortedMetrics metrics).length - 10)).take 5
  else (mlSortedMetrics metrics).take ((mlSortedMetrics metrics).length - 5)

/-- The latest point sorted_metrics[-1]; only read after the code has
guarded the section to hold at least two points, so the default is
unreachable. -/
def mlLatest (metrics : List MetricPoint) : MetricPoint :=
  (mlSortedMetrics metrics).getLastD defaultMetricPoint

/-- The model-performance-degradation Issue. -/
def degradationIssue (recentAcc olderAcc drop : ℚ) : Issue :=
  { severity := "high"
    category := "quality"
    title := "Model Performance Degradation Detected"
    description := "Model accuracy dropped by " ++ fmtQ drop ++ " from "
      ++ fmtQ olderAcc ++ " to " ++ fmtQ recentAcc
    affected_component := "ML Model"
    impact := "Degraded model performance affects prediction quality and business outcomes"
    recommendation := "Investigate data drift, retrain model with recent data, review feature engineering, check for concept drift"
    confidence := 22/25
    metadata := [("recent_accuracy", MVal.num recentAcc),
                 ("older_accuracy", MVal.num olderAcc),
                 ("drop", MVal.num drop)] }

/-- The low-F1 Issue emitted from the latest metric point. -/
def f1Issue (f1 accuracy : ℚ) : Issue :=
  { severity := "medium"
    category := "quality"
    title := "Low Model F1 Score"
    description := "Current F1 score is " ++ fmtQ f1 ++ ", below threshold of 0.7"
    affected_component := "ML Model"
    impact := "Low F1 score indicates poor balance between precision and recall"
    recommendation := "Review class imbalance, adjust decision threshold, improve feature selection, collect more training data for underrepresented classes"
    confidence := 17/20
    metadata := [("f1_score", MVal.num f1), ("accuracy", MVal.num accuracy)] }

/-- MLOpsAgent._analyze_model_performance: returns early when the section
has fewer than two points; otherwise sorts by timestamp, compares the mean
accuracy of the last five points against the window before them (the five
before those when at least ten points exist, otherwise everything before
the last five), emitting the degradation Issue on a drop above 0.05, and
then checks the F1 score of the latest point against the threshold 0.7.
Python slices sorted[-5:], sorted[-10:-5] and sorted[:-5] are modelled
with drop and take. -/
def analyzeModelPerformance (metrics : List MetricPoint) : List Issue :=
  if metrics.length < 2 then []
  else
    let degIssues :=
      if 2 ≤ (mlSortedMetrics metrics).length then
        if mlOlder metrics ≠ [] ∧ mlRecent metrics ≠ [] then
          let recentAccuracy := meanAccuracy (mlRecent metrics)
          let olderAccuracy := meanAccuracy (mlOlder metrics)
          let accuracyDrop := olderAccuracy - recentAccuracy
          if 1/20 < accuracyDrop
          then [degradationIssue recentAccuracy olderAccuracy accuracyDrop]
          else []
        else []
      else []
    let f1 := (mlLatest metrics).f1_score.getD 0
    let accuracy := (mlLatest metrics).accuracy.getD 0
    let f1Issues := if f1 < 7/10 then [f1Issue f1 accuracy] else []
    degIssues ++ f1Issues

/-! ## Correlator (IssueDetector, src/monitors/issue_detector.py) -/

/-- Python substring membership (needle in hay) on lists of characters:
true when the needle occurs contiguously anywhere in the hay. -/
def charsContain (needle : List Char) : List Char → Bool
  | [] => needle.isEmpty
  | c :: rest => needle.isPrefixOf (c :: rest) || charsContain needle rest

/-- Python str.lower() character by character; String.mk over the mapped
character list models String.toLower (whose in-place implementation is
defined by well-founded recursion and therefore unsuited to kernel
evaluation). -/
def pyLower (s : String) : String := String.mk (s.toList.map Char.toLower)

/-- Python substring membership on strings. -/
def strContains (hay needle : String) : Bool :=
  charsContain needle.toList hay.toList

/-- The build_failures filter of _detect_cascading_failures: title
contains "build" (case-insensitive) and severity is high or critical. -/
def isBuildFailureIssue (i : Issue) : Bool :=
  strContains (pyLower i.title) "build" &&
    (i.severity == "high" || i.severity == "critical")

/-- The deployment_failures filter of _detect_cascading_failures: title
contains "deployment" (case-insensitive). -/
def isDeploymentIssue (i : Issue) : Bool :=
  strContains (pyLower i.title) "deployment"

/-- The synthetic cascading-failures Issue. -/
def cascadeIssue (buildCount deployCount : Nat) : Issue :=
  { severity := "critical"
    category := "reliability"
    title := "Cascading Failures Detected"
    description := "Build failures (" ++ toString buildCount
      ++ ") are likely causing deployment issues (" ++ toString deployCount ++ ")"
    affected_component := "CI/CD Pipeline"
    impact := "Build failures block deployments, creating a bottleneck in the release process"
    recommendation := "Fix build issues first: address test failures, resolve dependency conflicts, improve build stability"
    confidence := 17/20
    metadata := [("build_failures", MVal.num buildCount),
                 ("deployment_failures", MVal.num deployCount)] }

/-- IssueDetector._detect_cascading_failures: emits the single synthetic
Issue exactly when both a qualifying build issue and a deployment issue
exist in the input. -/
def detectCascadingFailures (issues : List Issue) : List Issue :=
  let buildFailures := issues.filter isBuildFailureIssue
  let deploymentFailures := issues.filter isDeploymentIssue
  if buildFailures ≠ [] ∧ deploymentFailures ≠ []
  then [cascadeIssue buildFailures.length deploymentFailures.length]
  else []

/-- The keys of the category_counts dictionary of _detect_systemic_issues
in first-occurrence order, modelling Python dict insertion-order
iteration. -/
def categoriesInOrder : List Issue → List String
  | [] => []
  | i :: rest => i.category :: (categoriesInOrder rest).filter (fun c => decide (c ≠ i.category))

/-- Number of input issues in a given category. -/
def categoryCount (issues : List Issue) (c : String) : Nat :=
  (issues.filter (fun i => i.category = c)).length

/-- The synthetic systemic Issue for one category. -/
def systemicIssue (c : String) (count : Nat) : Issue :=
  { severity := "high"
    category := c
    title := "Systemic " ++ c.capitalize ++ " Issues"
    description := "Detected " ++ toString count ++ " " ++ c ++ " issues across pipelines"
    affected_component := "Platform-Wide"
    impact := "Multiple " ++ c ++ " issues indicate a systemic problem requiring platform-level attention"
    recommendation := "Conduct root cause analysis for " ++ c
      ++ " issues, implement platform-level improvements, review " ++ c ++ " best practices"
    confidence := 3/4
    metadata := [("issue_count", MVal.num count), ("category", MVal.str c)] }

/-- IssueDetector._detect_systemic_issues: counts issues per category and,
iterating the counts in insertion order, emits one synthetic Issue for
every category with at least five issues. -/
def detectSystemicIssues (issues : List Issue) : List Issue :=
  (categoriesInOrder issues).filterMap (fun c =>
    let count := categoryCount issues c
    if 5 ≤ count then some (systemicIssue c count) else none)

/-! ## Helper lemmas about the prioritization comparison -/

unseal Rat.add Rat.mul Rat.inv Rat.sub

/-- The prioritization comparison is transitive. -/
theorem keyGe_trans (a b c : Issue) (h1 : keyGe a b = true) (h2 : keyGe b c = true) :
    keyGe a c = true := by
  simp only [keyGe, decide_eq_true_eq] at h1 h2 ⊢
  rcases h1 with h1 | ⟨h1e, h1c⟩ <;> rcases h2 with h2 | ⟨h2e, h2c⟩
  · exact Or.inl (h2.trans h1)
  · exact Or.inl (by omega)
  · exact Or.inl (by omega)
  · exact Or.inr ⟨by omega, h2c.trans h1c⟩

/-- The prioritization comparison is total. -/
theorem keyGe_total (a b : Issue) : keyGe a b || keyGe b a := by
  simp only [keyGe, Bool.or_eq_true, decide_eq_true_eq]
  rcases Nat.lt_trichotomy (issueKey a).1 (issueKey b).1 with h | h | h
  · exact Or.inr (Or.inl h)
  · rcases le_total (issueKey b).2 (issueKey a).2 with hc | hc
    · exact Or.inl (Or.inr ⟨h, hc⟩)
    · exact Or.inr (Or.inr ⟨h.symm, hc⟩)
  · exact Or.inl (Or.inl h)

/-- Prioritization permutes its input. -/
theorem prioritize_perm (l : List Issue) : List.Perm (prioritizeIssues l) l :=
  List.mergeSort_perm l keyGe

/-- Prioritization sorts descending by (severity rank, confidence). -/
theorem prioritize_sorted (l : List Issue) :
    (prioritizeIssues l).Pairwise (fun a b => keyGe a b = true) :=
  List.sorted_mergeSort keyGe_trans keyGe_total l

/-- Stability of prioritization: the sublist of issues carrying one exact
key (severity rank, confidence) is returned unchanged, i.e. exact ties
keep their original relative order. -/
theorem prioritize_filter_key (l : List Issue) (k : Nat × ℚ) :
    (prioritizeIssues l).filter (fun x => decide (issueKey x = k)) =
      l.filter (fun x => decide (issueKey x = k)) := by
  have hpw : (l.filter (fun x => decide (issueKey x = k))).Pairwise
      (fun a b => keyGe a b = true) := by
    apply List.pairwise_of_forall_mem_list
    intro a ha b hb
    rw [List.mem_filter] at ha hb
    have ha2 : issueKey a = k := of_decide_eq_true ha.2
    have hb2 : issueKey b = k := of_decide_eq_true hb.2
    simp only [keyGe, decide_eq_true_eq]
    exact Or.inr ⟨by rw [ha2, hb2], by rw [ha2, hb2]⟩
  have h2 := List.sublist_mergeSort keyGe_trans keyGe_total hpw
    (List.filter_sublist l)
  have h3 := h2.filter (fun x => decide (issueKey x = k))
  rw [List.filter_filter] at h3
  simp only [Bool.and_self] at h3
  have h4 : ((prioritizeIssues l).filter (fun x => decide (issueKey x = k))).length =
      (l.filter (fun x => decide (issueKey x = k))).length :=
    ((prioritize_perm l).filter _).length_eq
  exact (h3.eq_of_length h4.symm).symm

/-- Pairwise stability of prioritization: two issues already in the
specified order keep their relative order in the output. -/
theorem prioritize_pair_stable (l : List Issue) (a b : Issue)
    (h : keyGe a b = true) (hsub : List.Sublist [a, b] l) :
    List.Sublist [a, b] (prioritizeIssues l) :=
  List.pair_sublist_mergeSort keyGe_trans keyGe_total h hsub

/-! ## Claim theorems: shared analyzer capability -/

/-- C1. Prioritization returns a permutation of its input, sorted
descending by the lexicographic pair (severity rank, confidence) with the
severity ranks of the fixed table, exact ties keep their original relative
order (the sublist at any exact key is unchanged), and prioritization is
idempotent. -/
theorem prioritize_correct (l : List Issue) :
    List.Perm (prioritizeIssues l) l ∧
    (prioritizeIssues l).Pairwise (fun a b =>
      (issueKey b).1 < (issueKey a).1 ∨
        ((issueKey a).1 = (issueKey b).1 ∧ (issueKey b).2 ≤ (issueKey a).2)) ∧
    (severityRank "critical" = 4 ∧ severityRank "high" = 3 ∧
      severityRank "medium" = 2 ∧ severityRank "low" = 1) ∧
    (∀ k : Nat × ℚ, (prioritizeIssues l).filter (fun x => decide (issueKey x = k)) =
      l.filter (fun x => decide (issueKey x = k))) ∧
    prioritizeIssues (prioritizeIssues l) = prioritizeIssues l := by
  refine ⟨prioritize_perm l, ?_, by decide, prioritize_filter_key l, ?_⟩
  · exact (prioritize_sorted l).imp (fun h => by
      simpa only [keyGe, decide_eq_true_eq] using h)
  · exact List.mergeSort_of_sorted (prioritize_sorted l)

/-- C2. The confidence score computed by the shared base capability equals
the clamp of the weighted evidence sum to [0, 1]; it always lies in
[0, 1], the empty mapping yields 0, and a weighted sum at or above 1 is
clamped to exactly 1. -/
theorem confidence_correct (evidence : List (String × ℚ)) :
    calculateConfidence evidence = confidenceSpec evidence ∧
    0 ≤ calculateConfidence evidence ∧
    calculateConfidence evidence ≤ 1 ∧
    calculateConfidence [] = 0 ∧
    (1 ≤ weightedSum evidence → calculateConfidence evidence = 1) := by
  have heq : calculateConfidence evidence = confidenceSpec evidence := by
    simp only [calculateConfidence, confidenceSpec, weightedSum]
    cases evidence.lookup "pattern_match" <;>
      cases evidence.lookup "statistical_significance" <;>
      cases evidence.lookup "historical_data" <;>
      simp
  refine ⟨heq, ?_, ?_, ?_, ?_⟩
  · rw [heq]; exact le_min (le_max_right _ 0) zero_le_one
  · rw [heq]; exact min_le_right _ 1
  · simp [calculateConfidence]
  · intro h
    rw [heq]
    show min (max (weightedSum evidence) 0) 1 = 1
    rw [max_eq_left (zero_le_one.trans h), min_eq_right h]

/-- Witness for C2 at concrete inputs: evidence far above the
weight-implied bound is clamped to 1. -/
theorem confidence_correct_witness :
    calculateConfidence [("pattern_match", 10), ("statistical_significance", 5)] = 1 :=
  (confidence_correct [("pattern_match", 10), ("statistical_significance", 5)]).2.2.2.2
    (by decide)

/-- C9. An issue with a severity outside the fixed vocabulary gets rank 0,
so prioritization (which never rejects or raises: it always returns a
permutation) places it after every issue with a recognized severity, while
any two issues already in the specified order, in particular recognized
ones, keep their relative order. -/
theorem prioritize_unknown_severity (l : List Issue) :
    (∀ s : String, s ∉ (["critical", "high", "medium", "low"] : List String) →
      severityRank s = 0) ∧
    List.Perm (prioritizeIssues l) l ∧
    (prioritizeIssues l).Pairwise (fun a b =>
      severityRank a.severity = 0 → severityRank b.severity = 0) ∧
    (∀ a b : Issue, keyGe a b = true → List.Sublist [a, b] l →
      List.Sublist [a, b] (prioritizeIssues l)) := by
  refine ⟨?_, prioritize_perm l, ?_, prioritize_pair_stable l⟩
  · intro s hs
    simp only [List.mem_cons, List.not_mem_nil, or_false, not_or] at hs
    simp [severityRank, hs.1, hs.2.1, hs.2.2.1, hs.2.2.2]
  · refine (prioritize_sorted l).imp (fun h ha => ?_)
    simp only [keyGe, decide_eq_true_eq, issueKey] at h
    rcases h with h | ⟨he, _⟩
    · omega
    · omega

/-- A concrete high-severity issue used in witnesses. -/
def highExample : Issue :=
  { severity := "high", category := "reliability", title := "Example High Issue"
    description := "example", affected_component := "example", impact := "example"
    recommendation := "example", confidence := 1/2, metadata := [] }

/-- A concrete medium-severity issue used in witnesses. -/
def mediumExample : Issue :=
  { severity := "medium", category := "performance", title := "Example Medium Issue"
    description := "example", affected_component := "example", impact := "example"
    recommendation := "example", confidence := 1/2, metadata := [] }

/-- Witness for C9: a made-up severity string gets rank 0, and a concrete
pair of issues already in the specified descending order is kept in
order. -/
theorem prioritize_unknown_severity_witness :
    severityRank "unknown-severity" = 0 ∧
    List.Sublist [highExample, mediumExample]
      (prioritizeIssues [highExample, mediumExample]) :=
  ⟨(prioritize_unknown_severity []).1 "unknown-severity" (by decide),
    (prioritize_unknown_severity [highExample, mediumExample]).2.2.2
      highExample mediumExample (by decide) (List.Sublist.refl _)⟩

/-! ## Claim theorems: delivery-pipeline build performance -/

/-- Concrete scenario from the spec: 20 builds, all successful, durations
averaging 650 seconds. -/
def builds650 : List Build :=
  List.replicate 20 { status := some "success", duration := some 650 }

/-- Normal form of the build-performance sub-check output. -/
theorem analyzeBuildPerformance_eq (builds : List Build) :
    analyzeBuildPerformance builds =
      (if successDurations builds ≠ [] ∧ 600 < avgSuccessDuration builds
       then [slowBuildIssue (avgSuccessDuration builds) (successDurations builds).length]
       else []) ++
      (if 3/20 < buildFailureRate builds
       then [buildFailureIssue (buildFailureRate builds) (failedBuildCount builds) builds.length]
       else []) := by
  by_cases hb : builds.length = 0
  · have hnil : builds = [] := List.length_eq_zero.mp hb
    subst hnil
    simp [analyzeBuildPerformance, successDurations, buildFailureRate]
    norm_num
  · simp only [analyzeBuildPerformance, if_neg hb, avgSuccessDuration,
      buildFailureRate, if_pos (Nat.pos_of_ne_zero hb)]
    have hlen : ((successDurations builds).length ≠ 0) ↔ successDurations builds ≠ [] := by
      simp [List.length_eq_zero]
    by_cases hd : successDurations builds ≠ [] <;>
      by_cases ha : 600 < (successDurations builds).sum / ((successDurations builds).length : ℚ) <;>
      simp_all

/-- C3. In the build-performance check, the average is taken over
successful builds only, a medium/performance Issue with confidence 0.9 and
metadata (avg_duration, sample_size) is emitted exactly when that average
exceeds 600 seconds, a high/reliability Issue with confidence 0.95 is
emitted exactly when the failure rate over all builds exceeds 0.15, and
for 20 all-successful builds averaging 650 seconds the output is exactly
one performance Issue with avg_duration 650 and no reliability Issue. -/
theorem build_performance_correct (builds : List Build) :
    ((∃ i ∈ analyzeBuildPerformance builds, i.category = "performance") ↔
      (successDurations builds ≠ [] ∧ 600 < avgSuccessDuration builds)) ∧
    ((∃ i ∈ analyzeBuildPerformance builds, i.category = "reliability") ↔
      3/20 < buildFailureRate builds) ∧
    (∀ i ∈ analyzeBuildPerformance builds, i.category = "performance" →
      i = slowBuildIssue (avgSuccessDuration builds) (successDurations builds).length ∧
        i.severity = "medium" ∧ i.confidence = 9/10 ∧
        i.metadata = [("avg_duration", MVal.num (avgSuccessDuration builds)),
                      ("sample_size", MVal.num (successDurations builds).length)]) ∧
    (∀ i ∈ analyzeBuildPerformance builds, i.category = "reliability" →
      i = buildFailureIssue (buildFailureRate builds) (failedBuildCount builds) builds.length ∧
        i.severity = "high" ∧ i.confidence = 19/20) ∧
    (analyzeBuildPerformance builds650 = [slowBuildIssue 650 20] ∧
      (slowBuildIssue 650 20).category = "performance" ∧
      (slowBuildIssue 650 20).metadata = [("avg_duration", MVal.num 650),
                                          ("sample_size", MVal.num 20)] ∧
      ∀ i ∈ analyzeBuildPerformance builds650, i.category ≠ "reliability") := by
  have hperf : ∀ a n, (slowBuildIssue a n).category = "performance" := fun _ _ => rfl
  have hrel : ∀ r f t, (buildFailureIssue r f t).category = "reliability" := fun _ _ _ => rfl
  have h650 : analyzeBuildPerformance builds650 = [slowBuildIssue 650 20] := by decide
  rw [analyzeBuildPerformance_eq builds]
  refine ⟨?_, ?_, ?_, ?_, h650, rfl, rfl, ?_⟩
  · constructor
    · rintro ⟨i, hi, hcat⟩
      rw [List.mem_append] at hi
      rcases hi with hi | hi
      · by_cases h : successDurations builds ≠ [] ∧ 600 < avgSuccessDuration builds
        · exact h
        · rw [if_neg h] at hi; cases hi
      · by_cases h : 3/20 < buildFailureRate builds
        · rw [if_pos h] at hi
          simp only [List.mem_singleton] at hi
          subst hi
          exact absurd (show ("reliability" : String) = "performance" from hcat) (by decide)
        · rw [if_neg h] at hi; cases hi
    · intro h
      exact ⟨_, by rw [if_pos h]; exact List.mem_append_left _ (List.mem_singleton.mpr rfl),
        hperf _ _⟩
  · constructor
    · rintro ⟨i, hi, hcat⟩
      rw [List.mem_append] at hi
      rcases hi with hi | hi
      · by_cases h : successDurations builds ≠ [] ∧ 600 < avgSuccessDuration builds
        · rw [if_pos h] at hi
          simp only [List.mem_singleton] at hi
          subst hi
          exact absurd (show ("performance" : String) = "reliability" from hcat) (by decide)
        · rw [if_neg h] at hi; cases hi
      · by_cases h : 3/20 < buildFailureRate builds
        · exact h
        · rw [if_neg h] at hi; cases hi
    · intro h
      exact ⟨_, List.mem_append_right _ (by rw [if_pos h]; exact List.mem_singleton.mpr rfl),
        hrel _ _ _⟩
  · intro i hi hcat
    rw [List.mem_append] at hi
    rcases hi with hi | hi
    · by_cases h : successDurations builds ≠ [] ∧ 600 < avgSuccessDuration builds
      · rw [if_pos h] at hi
        simp only [List.mem_singleton] at hi
        subst hi
        exact ⟨rfl, rfl, rfl, rfl⟩
      · rw [if_neg h] at hi; cases hi
    · by_cases h : 3/20 < buildFailureRate builds
      · rw [if_pos h] at hi
        simp only [List.mem_singleton] at hi
        subst hi
        exact absurd (show ("reliability" : String) = "performance" from hcat) (by decide)
      · rw [if_neg h] at hi; cases hi
  · intro i hi hcat
    rw [List.mem_append] at hi
    rcases hi with hi | hi
    · by_cases h : successDurations builds ≠ [] ∧ 600 < avgSuccessDuration builds
      · rw [if_pos h] at hi
        simp only [List.mem_singleton] at hi
        subst hi
        exact absurd (show ("performance" : String) = "reliability" from hcat) (by decide)
      · rw [if_neg h] at hi; cases hi
    · by_cases h : 3/20 < buildFailureRate builds
      · rw [if_pos h] at hi
        simp only [List.mem_singleton] at hi
        subst hi
        exact ⟨rfl, rfl, rfl⟩
      · rw [if_neg h] at hi; cases hi
  · intro i hi
    rw [h650] at hi
    simp only [List.mem_singleton] at hi
    subst hi
    decide

/-- Witness for C3: the concrete 20-build batch satisfies the threshold
condition and the performance Issue is indeed emitted. -/
theorem build_performance_correct_witness :
    ∃ i ∈ analyzeBuildPerformance builds650, i.category = "performance" :=
  (build_performance_correct builds650).1.mpr (by decide)

/-- C8. Evaluation of the code at the failing input: a builds section with
one successful build whose duration is the string "600s" makes the
build-performance sub-check raise TypeError inside sum(); analyze has no
exception handler around its sub-checks, so the error propagates out of
the whole analyze call instead of the record being skipped. -/
theorem analyze_raises_on_malformed_duration :
    analyzeBuildPerformanceDyn
        [{ status := some "success", duration := some (PyVal.str "600s") }] =
      Except.error "TypeError: unsupported operand type(s) for +: int and str" := rfl

/-! ## Claim theorems: delivery-pipeline test flakiness -/

/-- Concrete scenario from the spec: one test name with 6 passing and 4
failing executions. -/
def flakySample : List TestRec :=
  List.replicate 6 { name := some "test_checkout", status := some "passed" } ++
    List.replicate 4 { name := some "test_checkout", status := some "failed" }

/-- Concrete scenario from the spec: one test name with 10 passing and 0
failing executions. -/
def stableSample : List TestRec :=
  List.replicate 10 { name := some "test_checkout", status := some "passed" }

/-- Equation lemma: a record with no name is skipped by the grouping. -/
theorem testNames_cons_none (t : TestRec) (ts : List TestRec) (h : t.name = none) :
    testNames (t :: ts) = testNames ts := by
  simp [testNames, h]

/-- Equation lemma: a record with a name is grouped unless the name is the
empty string. -/
theorem testNames_cons_some (t : TestRec) (ts : List TestRec) (m : String)
    (h : t.name = some m) :
    testNames (t :: ts) =
      if m = "" then testNames ts
      else m :: (testNames ts).filter (fun x => decide (x ≠ m)) := by
  simp [testNames, h]

/-- The two status counters of one grouped test name partition its
records. -/
theorem pass_add_fail (tests : List TestRec) (n : String) :
    passCount tests n + failCount tests n =
      (tests.filter (fun t => t.name = some n)).length := by
  induction tests with
  | nil => rfl
  | cons t ts ih =>
    by_cases h1 : t.name = some n
    · by_cases h2 : t.status = some "passed"
      · simp only [passCount, failCount, List.filter_cons, h1, h2] at ih ⊢
        simp only [decide_eq_true_eq]
        simp [passCount, failCount] at ih
        simp [ih]
        omega
      · simp only [passCount, failCount, List.filter_cons, h1, h2] at ih ⊢
        simp only [decide_eq_true_eq]
        simp [passCount, failCount] at ih
        simp [h2, ih]
        omega
    · simp only [passCount, failCount, List.filter_cons, h1] at ih ⊢
      simp only [decide_eq_true_eq]
      simp [passCount, failCount] at ih
      simp [h1, ih]

/-- Membership in the grouped test names. -/
theorem mem_testNames (tests : List TestRec) (n : String) :
    n ∈ testNames tests ↔ (n ≠ "" ∧ ∃ t ∈ tests, t.name = some n) := by
  induction tests with
  | nil => simp [testNames]
  | cons t ts ih =>
    cases ht : t.name with
    | none =>
      rw [testNames_cons_none t ts ht, ih]
      constructor
      · rintro ⟨hne, t0, ht0, he⟩
        exact ⟨hne, t0, List.mem_cons_of_mem _ ht0, he⟩
      · rintro ⟨hne, t0, ht0, he⟩
        rcases List.mem_cons.mp ht0 with rfl | h
        · rw [ht] at he; cases he
        · exact ⟨hne, t0, h, he⟩
    | some m =>
      by_cases hm : m = ""
      · rw [testNames_cons_some t ts m ht, if_pos hm, ih]
        subst hm
        constructor
        · rintro ⟨hne, t0, ht0, he⟩
          exact ⟨hne, t0, List.mem_cons_of_mem _ ht0, he⟩
        · rintro ⟨hne, t0, ht0, he⟩
          rcases List.mem_cons.mp ht0 with rfl | h
          · rw [ht] at he
            exact absurd (Option.some_injective _ he).symm hne
          · exact ⟨hne, t0, h, he⟩
      · rw [testNames_cons_some t ts m ht, if_neg hm]
        constructor
        · intro hmem
          rcases List.mem_cons.mp hmem with rfl | hmem2
          · exact ⟨hm, t, List.mem_cons_self t ts, ht⟩
          · rw [List.mem_filter] at hmem2
            obtain ⟨hne, t0, ht0, he⟩ := ih.mp hmem2.1
            exact ⟨hne, t0, List.mem_cons_of_mem _ ht0, he⟩
        · rintro ⟨hne, t0, ht0, he⟩
          rcases List.mem_cons.mp ht0 with rfl | h
          · rw [ht] at he
            exact List.mem_cons.mpr (Or.inl (Option.some_injective _ he).symm)
          · by_cases hnm : n = m
            · exact List.mem_cons.mpr (Or.inl hnm)
            · refine List.mem_cons.mpr (Or.inr ?_)
              rw [List.mem_filter]
              exact ⟨ih.mpr ⟨hne, t0, h, he⟩, by simpa using hnm⟩

/-- The grouped test names contain no duplicates. -/
theorem nodup_testNames (tests : List TestRec) : (testNames tests).Nodup := by
  induction tests with
  | nil => simp [testNames]
  | cons t ts ih =>
    cases ht : t.name with
    | none => rw [testNames_cons_none t ts ht]; exact ih
    | some m =>
      by_cases hm : m = ""
      · rw [testNames_cons_some t ts m ht, if_pos hm]; exact ih
      · rw [testNames_cons_some t ts m ht, if_neg hm]
        refine List.nodup_cons.mpr ⟨?_, ih.filter _⟩
        simp [List.mem_filter]

/-- Membership in the flaky list, in terms of the code conditions. -/
theorem mem_flakyTests (tests : List TestRec) (n : String) (r : ℚ) :
    (n, r) ∈ flakyTests tests ↔
      (n ∈ testNames tests ∧
        1 < passCount tests n + failCount tests n ∧
        0 < failCount tests n ∧ 0 < passCount tests n ∧
        r = (failCount tests n : ℚ) / ((passCount tests n + failCount tests n : Nat) : ℚ) ∧
        1/10 < r ∧ r < 9/10) := by
  simp only [flakyTests, List.mem_filterMap]
  constructor
  · rintro ⟨m, hm, hf⟩
    split_ifs at hf with h1 h2
    · rw [Option.some_inj] at hf
      injection hf with hA hB
      subst hA
      subst hB
      exact ⟨hm, h1.1, h1.2.1, h1.2.2, rfl, h2.1, h2.2⟩
  · rintro ⟨hmem, h1, h2, h3, hr, h4, h5⟩
    refine ⟨n, hmem, ?_⟩
    rw [if_pos ⟨h1, h2, h3⟩, if_pos ⟨hr ▸ h4, hr ▸ h5⟩, hr]


/-- C4. A test is classified flaky exactly when it has at least two
recorded runs and a failure ratio strictly between 0.1 and 0.9; when flaky
tests exist, exactly one high/reliability Issue with confidence 0.85
listing up to the first three flaky names is emitted; a 6 pass / 4 fail
test is flaky while a 10 pass / 0 fail test is not. -/
theorem test_flakiness_correct (tests : List TestRec) :
    (∀ n : String, ∀ r : ℚ, n ≠ "" →
      ((n, r) ∈ flakyTests tests ↔
        (2 ≤ passCount tests n + failCount tests n ∧
          r = (failCount tests n : ℚ) / ((passCount tests n + failCount tests n : Nat) : ℚ) ∧
          1/10 < r ∧ r < 9/10))) ∧
    (flakyTests tests = [] → analyzeTestReliability tests = []) ∧
    (flakyTests tests ≠ [] →
      analyzeTestReliability tests = [flakyIssue (flakyTests tests)] ∧
        (flakyIssue (flakyTests tests)).severity = "high" ∧
        (flakyIssue (flakyTests tests)).category = "reliability" ∧
        (flakyIssue (flakyTests tests)).confidence = 17/20 ∧
        (flakyIssue (flakyTests tests)).recommendation =
          "Investigate and fix flaky tests: "
            ++ String.intercalate ", " (((flakyTests tests).take 3).map Prod.fst)
            ++ (if 3 < (flakyTests tests).length then "..." else "")
            ++ ". Common causes: timing issues, shared state, external dependencies") ∧
    (flakyTests flakySample = [("test_checkout", 2/5)] ∧
      analyzeTestReliability flakySample = [flakyIssue [("test_checkout", 2/5)]] ∧
      flakyTests stableSample = [] ∧
      analyzeTestReliability stableSample = []) := by
  refine ⟨?_, ?_, ?_, by decide, by decide, by decide, by decide⟩
  · intro n r hne
    rw [mem_flakyTests]
    constructor
    · rintro ⟨_, h1, _, _, hr, h4, h5⟩
      exact ⟨h1, hr, h4, h5⟩
    · rintro ⟨h1, hr, h4, h5⟩
      have htotpos : (0 : ℚ) < ((passCount tests n + failCount tests n : Nat) : ℚ) := by
        have : 0 < passCount tests n + failCount tests n := by omega
        exact_mod_cast this
      have hf : 0 < failCount tests n := by
        rcases Nat.eq_zero_or_pos (failCount tests n) with h0 | h0
        · rw [hr, h0] at h4
          norm_num at h4
        · exact h0
      have hp : 0 < passCount tests n := by
        rcases Nat.eq_zero_or_pos (passCount tests n) with h0 | h0
        · rw [hr, h0] at h5
          rw [Nat.zero_add, div_self (ne_of_gt (by rw [h0, Nat.zero_add] at htotpos; exact_mod_cast htotpos))] at h5
          norm_num at h5
        · exact h0
      have hmem : n ∈ testNames tests := by
        rw [mem_testNames]
        refine ⟨hne, ?_⟩
        have : 0 < (tests.filter (fun t => t.name = some n ∧ t.status = some "passed")).length := hp
        obtain ⟨t, htmem⟩ := List.length_pos_iff_exists_mem.mp this
        rw [List.mem_filter, decide_eq_true_eq] at htmem
        exact ⟨t, htmem.1, htmem.2.1⟩
      exact ⟨hmem, by omega, hf, hp, hr, h4, h5⟩
  · intro h
    simp [analyzeTestReliability, h]
  · intro h
    exact ⟨by simp [analyzeTestReliability, h], rfl, rfl, rfl, rfl⟩

/-- Witness for C4: the 6 pass / 4 fail test satisfies the flakiness
characterization at ratio 0.4. -/
theorem test_flakiness_correct_witness :
    ("test_checkout", (2/5 : ℚ)) ∈ flakyTests flakySample :=
  ((test_flakiness_correct flakySample).1 "test_checkout" (2/5) (by decide)).mpr (by decide)

/-! ## Claim theorems: correlator -/

/-- Concrete build-failure issue (high severity, title contains "build")
for the cascading-failure scenario. -/
def buildFailureExample : Issue := buildFailureIssue (1/5) 2 10

/-- Concrete deployment-failure issue (title contains "deployment"),
modelled on the Issue emitted by the deployment sub-check. -/
def deploymentFailureExample : Issue :=
  { severity := "critical"
    category := "reliability"
    title := "High Deployment Failure Rate"
    description := "Deployment failure rate is 50%"
    affected_component := "Deployment Pipeline"
    impact := "Failed deployments cause service disruptions, rollbacks, and delayed feature releases"
    recommendation := "Review deployment process, implement better pre-deployment testing, add automated rollback mechanisms, improve deployment scripts"
    confidence := 23/25
    metadata := [] }

/-- C6. The cascading-failure check emits exactly one critical/reliability
synthetic Issue with confidence 0.85 recording both counts in its
metadata, precisely when the input holds at least one high-or-critical
issue whose title contains "build" and at least one issue whose title
contains "deployment"; with only one of the two kinds it emits nothing. -/
theorem cascading_failures_correct (issues : List Issue) :
    (∀ i : Issue, isBuildFailureIssue i = true ↔
      (strContains (pyLower i.title) "build" = true ∧
        (i.severity = "high" ∨ i.severity = "critical"))) ∧
    (∀ i : Issue, isDeploymentIssue i = true ↔
      strContains (pyLower i.title) "deployment" = true) ∧
    (detectCascadingFailures issues ≠ [] ↔
      (issues.filter isBuildFailureIssue ≠ [] ∧ issues.filter isDeploymentIssue ≠ [])) ∧
    (issues.filter isBuildFailureIssue ≠ [] ∧ issues.filter isDeploymentIssue ≠ [] →
      detectCascadingFailures issues =
        [cascadeIssue (issues.filter isBuildFailureIssue).length
          (issues.filter isDeploymentIssue).length]) ∧
    (issues.filter isBuildFailureIssue = [] ∨ issues.filter isDeploymentIssue = [] →
      detectCascadingFailures issues = []) ∧
    (∀ nb nd : Nat, (cascadeIssue nb nd).severity = "critical" ∧
      (cascadeIssue nb nd).category = "reliability" ∧
      (cascadeIssue nb nd).confidence = 17/20 ∧
      (cascadeIssue nb nd).metadata =
        [("build_failures", MVal.num nb), ("deployment_failures", MVal.num nd)]) ∧
    (detectCascadingFailures [buildFailureExample, deploymentFailureExample] =
        [cascadeIssue 1 1] ∧
      detectCascadingFailures [buildFailureExample] = [] ∧
      detectCascadingFailures [deploymentFailureExample] = []) := by
  refine ⟨?_, ?_, ?_, ?_, ?_, fun nb nd => ⟨rfl, rfl, rfl, rfl⟩, by decide, by decide, by decide⟩
  · intro i
    simp [isBuildFailureIssue, Bool.and_eq_true, Bool.or_eq_true]
  · intro i
    simp [isDeploymentIssue]
  · by_cases h : issues.filter isBuildFailureIssue ≠ [] ∧ issues.filter isDeploymentIssue ≠ []
    · rw [detectCascadingFailures, if_pos h]
      simpa using h
    · rw [detectCascadingFailures, if_neg h]
      simpa using h
  · intro h
    rw [detectCascadingFailures, if_pos h]
  · intro h
    rw [detectCascadingFailures, if_neg (by tauto)]

/-- Witness for C6: both kinds present in the concrete scenario, so the
synthetic Issue is emitted. -/
theorem cascading_failures_correct_witness :
    detectCascadingFailures [buildFailureExample, deploymentFailureExample] ≠ [] :=
  (cascading_failures_correct [buildFailureExample, deploymentFailureExample]).2.2.1.mpr
    (by decide)

/-- Membership in the insertion-ordered category keys. -/
theorem mem_categoriesInOrder (issues : List Issue) (c : String) :
    c ∈ categoriesInOrder issues ↔ ∃ i ∈ issues, i.category = c := by
  induction issues with
  | nil => simp [categoriesInOrder]
  | cons i is ih =>
    rw [categoriesInOrder]
    constructor
    · intro h
      rcases List.mem_cons.mp h with rfl | h2
      · exact ⟨i, List.mem_cons_self i is, rfl⟩
      · rw [List.mem_filter] at h2
        obtain ⟨j, hj, hjc⟩ := ih.mp h2.1
        exact ⟨j, List.mem_cons_of_mem _ hj, hjc⟩
    · rintro ⟨j, hj, hjc⟩
      rcases List.mem_cons.mp hj with rfl | hj2
      · exact List.mem_cons.mpr (Or.inl hjc.symm)
      · by_cases hc : c = i.category
        · exact List.mem_cons.mpr (Or.inl hc)
        · refine List.mem_cons.mpr (Or.inr ?_)
          rw [List.mem_filter]
          exact ⟨ih.mpr ⟨j, hj2, hjc⟩, by simpa using hc⟩

/-- The insertion-ordered category keys contain no duplicates. -/
theorem nodup_categoriesInOrder (issues : List Issue) :
    (categoriesInOrder issues).Nodup := by
  induction issues with
  | nil => simp [categoriesInOrder]
  | cons i is ih =>
    simp only [categoriesInOrder]
    refine List.nodup_cons.mpr ⟨?_, ih.filter _⟩
    simp [List.mem_filter]

/-- A category has a positive count exactly when some input issue carries
it. -/
theorem categoryCount_pos (issues : List Issue) (c : String) :
    0 < categoryCount issues c ↔ ∃ i ∈ issues, i.category = c := by
  rw [categoryCount, List.length_pos_iff_exists_mem]
  constructor
  · rintro ⟨i, hi⟩
    rw [List.mem_filter, decide_eq_true_eq] at hi
    exact ⟨i, hi.1, hi.2⟩
  · rintro ⟨i, hi, hc⟩
    exact ⟨i, List.mem_filter.mpr ⟨hi, by simpa using hc⟩⟩

/-- C7. The systemic check emits, for every category with at least five
issues in the whole input, exactly one high-severity synthetic Issue with
confidence 0.75 in that same category (distinct categories trigger
independently, at most one synthetic Issue per category), and none for
categories with fewer than five. -/
theorem systemic_issues_correct (issues : List Issue) (c : String) :
    (systemicIssue c (categoryCount issues c) ∈ detectSystemicIssues issues ↔
      5 ≤ categoryCount issues c) ∧
    (∀ i ∈ detectSystemicIssues issues, i.severity = "high" ∧ i.confidence = 3/4 ∧
      5 ≤ categoryCount issues i.category ∧
      i = systemicIssue i.category (categoryCount issues i.category) ∧
      i.metadata = [("issue_count", MVal.num (categoryCount issues i.category)),
                    ("category", MVal.str i.category)]) ∧
    (categoryCount issues c < 5 → ∀ i ∈ detectSystemicIssues issues, i.category ≠ c) ∧
    (detectSystemicIssues issues).Pairwise (fun a b => a.category ≠ b.category) ∧
    (detectSystemicIssues (List.replicate 5 (slowBuildIssue 650 20)) =
        [systemicIssue "performance" 5] ∧
      detectSystemicIssues (List.replicate 4 (slowBuildIssue 650 20)) = []) := by
  have hmem : ∀ i, i ∈ detectSystemicIssues issues ↔
      ∃ a ∈ categoriesInOrder issues, 5 ≤ categoryCount issues a ∧
        i = systemicIssue a (categoryCount issues a) := by
    intro i
    simp only [detectSystemicIssues, List.mem_filterMap]
    constructor
    · rintro ⟨a, ha, haf⟩
      split_ifs at haf with h5
      · exact ⟨a, ha, h5, (Option.some_inj.mp haf).symm⟩
    · rintro ⟨a, ha, h5, rfl⟩
      exact ⟨a, ha, by rw [if_pos h5]⟩
  have hfacts : ∀ i ∈ detectSystemicIssues issues, i.severity = "high" ∧
      i.confidence = 3/4 ∧ 5 ≤ categoryCount issues i.category ∧
      i = systemicIssue i.category (categoryCount issues i.category) ∧
      i.metadata = [("issue_count", MVal.num (categoryCount issues i.category)),
                    ("category", MVal.str i.category)] := by
    intro i hi
    obtain ⟨a, _, h5, rfl⟩ := (hmem i).mp hi
    exact ⟨rfl, rfl, h5, rfl, rfl⟩
  refine ⟨?_, hfacts, ?_, ?_, by decide, by decide⟩
  · constructor
    · intro hi
      obtain ⟨a, _, h5, he⟩ := (hmem _).mp hi
      have hac : a = c := congrArg Issue.category he.symm
      rw [hac] at h5
      exact h5
    · intro h5
      refine (hmem _).mpr ⟨c, ?_, h5, rfl⟩
      rw [mem_categoriesInOrder]
      exact (categoryCount_pos issues c).mp (by omega)
  · intro hlt i hi hc
    obtain ⟨-, -, h5, -, -⟩ := hfacts i hi
    rw [hc] at h5
    omega
  · have hp : (categoriesInOrder issues).Pairwise (fun a b => a ≠ b) :=
      nodup_categoriesInOrder issues
    refine List.Pairwise.filterMap _ ?_ hp
    intro a b hab x hx y hy
    simp only [Option.mem_def] at hx hy
    by_cases h1 : 5 ≤ categoryCount issues a
    · rw [if_pos h1] at hx
      by_cases h2 : 5 ≤ categoryCount issues b
      · rw [if_pos h2] at hy
        rw [← Option.some_inj.mp hx, ← Option.some_inj.mp hy]
        exact fun h => hab h
      · rw [if_neg h2] at hy
        cases hy
    · rw [if_neg h1] at hx
      cases hx

/-- Witness for C7: five performance issues make the systemic Issue for
the performance category appear. -/
theorem systemic_issues_correct_witness :
    systemicIssue "performance" 5 ∈
      detectSystemicIssues (List.replicate 5 (slowBuildIssue 650 20)) := by
  have h := (systemic_issues_correct (List.replicate 5 (slowBuildIssue 650 20)) "performance").1
  have hc : categoryCount (List.replicate 5 (slowBuildIssue 650 20)) "performance" = 5 := by
    decide
  rw [hc] at h
  exact h.mpr (by omega)

/-! ## Claim theorems: ML-pipeline model performance -/

/-- A single metric point with F1 score 0.5, well below the 0.7
threshold. -/
def lowF1Point : MetricPoint :=
  { timestamp := some "2024-01-01T00:00:00", accuracy := some (1/2), f1_score := some (1/2) }

/-- Two metric points in timestamp order, the latest with F1 0.5 and
accuracy 0.6. -/
def pairSample : List MetricPoint :=
  [{ timestamp := some "a01", accuracy := some 1, f1_score := some 1 },
   { timestamp := some "a02", accuracy := some (3/5), f1_score := some (1/2) }]

/-- Ten metric points in timestamp order: five at accuracy 0.9 followed by
five at accuracy 0.8, so the mean accuracy drops by 0.1. -/
def degradationSample : List MetricPoint :=
  [{ timestamp := some "a01", accuracy := some (9/10), f1_score := some 1 },
   { timestamp := some "a02", accuracy := some (9/10), f1_score := some 1 },
   { timestamp := some "a03", accuracy := some (9/10), f1_score := some 1 },
   { timestamp := some "a04", accuracy := some (9/10), f1_score := some 1 },
   { timestamp := some "a05", accuracy := some (9/10), f1_score := some 1 },
   { timestamp := some "a06", accuracy := some (4/5), f1_score := some 1 },
   { timestamp := some "a07", accuracy := some (4/5), f1_score := some 1 },
   { timestamp := some "a08", accuracy := some (4/5), f1_score := some 1 },
   { timestamp := some "a09", accuracy := some (4/5), f1_score := some 1 },
   { timestamp := some "a10", accuracy := some (4/5), f1_score := some 1 }]

/-- C5 counterexample: the claim asserts the low-F1 check fires even for a
single metric point, but on a one-point section with F1 0.5 (below the
0.7 threshold) the analyzer returns no Issues at all, because the whole
function returns early for fewer than two points. -/
theorem f1_single_point_counterexample :
    ([lowF1Point].length = 1 ∧ lowF1Point.f1_score.getD 0 < 7/10) ∧
    analyzeModelPerformance [lowF1Point] = [] :=
  ⟨⟨rfl, by decide⟩, by decide⟩

/-- C5 (amended). For a model_metrics section with at least two points,
the analyzer emits exactly one medium/quality Issue with confidence 0.85
for the time-latest point exactly when that point carries an F1 score
below 0.7, independently of whether the accuracy-trend degradation check
fires; with fewer than two points nothing is emitted. -/
theorem f1_check_correct (ms : List MetricPoint) (h : 2 ≤ ms.length) :
    ((analyzeModelPerformance ms).filter (fun i => i.title == "Low Model F1 Score") =
      if (mlLatest ms).f1_score.getD 0 < 7/10
      then [f1Issue ((mlLatest ms).f1_score.getD 0) ((mlLatest ms).accuracy.getD 0)]
      else []) ∧
    (∀ f a : ℚ, (f1Issue f a).severity = "medium" ∧ (f1Issue f a).category = "quality" ∧
      (f1Issue f a).confidence = 17/20) := by
  refine ⟨?_, fun f a => ⟨rfl, rfl, rfl⟩⟩
  have hnot : ¬ ms.length < 2 := by omega
  have hdegf : ∀ r o d : ℚ,
      List.filter (fun i => i.title == "Low Model F1 Score") [degradationIssue r o d] = [] := by
    intro r o d
    have hb : ((degradationIssue r o d).title == "Low Model F1 Score") = false :=
      (by decide :
        (("Model Performance Degradation Detected" : String) == "Low Model F1 Score") = false)
    simp [List.filter_cons, hb]
  have hf1f : ∀ f a : ℚ,
      List.filter (fun i => i.title == "Low Model F1 Score") [f1Issue f a] = [f1Issue f a] := by
    intro f a
    have hb : ((f1Issue f a).title == "Low Model F1 Score") = true :=
      (by decide : (("Low Model F1 Score" : String) == "Low Model F1 Score") = true)
    simp [List.filter_cons, hb]
  simp only [analyzeModelPerformance, if_neg hnot]
  rw [List.filter_append]
  split_ifs <;> simp [hdegf, hf1f]

/-- Witness for C5 (amended): on the two-point sample the latest point has
F1 0.5 and exactly the low-F1 Issue is emitted. -/
theorem f1_check_correct_witness :
    (analyzeModelPerformance pairSample).filter (fun i => i.title == "Low Model F1 Score") =
      [f1Issue (1/2) (3/5)] := by
  have hs : mlSortedMetrics pairSample = pairSample :=
    List.mergeSort_of_sorted (by decide)
  have h := (f1_check_correct pairSample (by decide)).1
  rw [h]
  simp only [mlLatest, hs]
  decide

/-- C10. On a model_metrics section with five points or fewer the
degradation Issue is never emitted, regardless of how large the accuracy
drop is, because the comparison window preceding the most recent five
points is empty; the degradation Issue requires at least six points. -/
theorem degradation_needs_six (ms : List MetricPoint) :
    (ms.length ≤ 5 → ∀ i ∈ analyzeModelPerformance ms,
      i.title ≠ "Model Performance Degradation Detected") ∧
    (∀ i ∈ analyzeModelPerformance ms,
      i.title = "Model Performance Degradation Detected" → 6 ≤ ms.length) := by
  have hsortlen : (mlSortedMetrics ms).length = ms.length := by
    simp [mlSortedMetrics]
  have main : ms.length ≤ 5 → ∀ i ∈ analyzeModelPerformance ms,
      i.title ≠ "Model Performance Degradation Detected" := by
    intro hle i hi
    by_cases h2 : ms.length < 2
    · simp [analyzeModelPerformance, if_pos h2] at hi
    · have holder : mlOlder ms = [] := by
        rw [mlOlder, hsortlen, if_neg (by omega : ¬ 10 ≤ ms.length),
          (by omega : ms.length - 5 = 0), List.take_zero]
      simp only [analyzeModelPerformance, if_neg h2, holder] at hi
      simp only [ne_eq, not_true_eq_false, false_and, if_false, ite_self,
        List.nil_append] at hi
      by_cases hf : (mlLatest ms).f1_score.getD 0 < 7/10
      · rw [if_pos hf, List.mem_singleton] at hi
        subst hi
        exact (by decide :
          ("Low Model F1 Score" : String) ≠ "Model Performance Degradation Detected")
      · rw [if_neg hf] at hi
        cases hi
  refine ⟨main, fun i hi ht => ?_⟩
  by_contra hlt
  push_neg at hlt
  exact main (by omega) i hi ht

/-- Witness for C10: at ten points with a 0.1 accuracy drop the
degradation Issue is actually emitted, and the theorem applied to that
emission recovers that the section holds at least six points. -/
theorem degradation_needs_six_witness : 6 ≤ degradationSample.length := by
  have hs : mlSortedMetrics degradationSample = degradationSample :=
    List.mergeSort_of_sorted (by decide)
  have heval : analyzeModelPerformance degradationSample =
      [degradationIssue (4/5) (9/10) (1/10)] := by
    simp only [analyzeModelPerformance, mlOlder, mlRecent, mlLatest, hs]
    decide
  exact (degradation_needs_six degradationSample).2
    (degradationIssue (4/5) (9/10) (1/10))
    (by rw [heval]; exact List.mem_singleton.mpr rfl) rfl

end KubAI
